import Mathlib

set_option autoImplicit false

namespace HoaxApi

/-- Milliseconds in one week, the token expiry window (spec section 4.1: EXPIRY is 7 days; the test in the repository builds `Date.now() - 7 * 24 * 60 * 60 * 1000 - 1` as an expired timestamp). -/
def oneWeekInMillis : Nat := 7 * 24 * 60 * 60 * 1000

/-- A row of the token store. Embeds the `Token` model referenced by the tests (`src/auth/Token`): opaque token string (primary key), owning user id, lastUsedAt timestamp in milliseconds. -/
structure TokenRow where
  token : String
  userId : Nat
  lastUsedAt : Nat
deriving Repr, DecidableEq

/-- A user row. Embeds the `User` model referenced by the routers and tests (spec section 3: `inactive` boolean defaults to true, `activationToken` nullable). The `password` field stores the bcrypt hash. -/
structure User where
  id : Nat
  username : String
  email : String
  password : String
  inactive : Bool
  activationToken : Option String
deriving Repr, DecidableEq

/-- A hoax row, from src/hoax/Hoax.js: content string and a millisecond timestamp. -/
structure Hoax where
  content : String
  timestamp : Nat
deriving Repr, DecidableEq

/-- Model of `bcrypt.hash` (external library) as an injective tagging; `bcrypt.compare(pw, stored)` is modelled as `stored == bcryptHash pw`. -/
def bcryptHash (pw : String) : String := "bcrypt." ++ pw

/-- Lookup of a token row by its token string (Sequelize `Token.findOne(\x7b where: \x7b token \x7d \x7d)`). -/
def findToken : List TokenRow → String → Option TokenRow
  | [], _ => none
  | r :: rs, t => if r.token == t then some r else findToken rs t

/-- Modelled from the spec: `TokenService.deleteToken` (src/auth/TokenService.js is not under src/). Spec section 4.1: idempotent delete of the row keyed by the token; an absent token is not an error. -/
def deleteToken : List TokenRow → String → List TokenRow
  | [], _ => []
  | r :: rs, t => if r.token == t then deleteToken rs t else r :: deleteToken rs t

/-- Modelled from the spec: `TokenService.deleteTokensForUser` (src/auth/TokenService.js is not under src/). Spec section 4.1: removes all tokens owned by a user, used on account deletion. -/
def deleteTokensForUser : List TokenRow → Nat → List TokenRow
  | [], _ => []
  | r :: rs, uid => if r.userId == uid then deleteTokensForUser rs uid else r :: deleteTokensForUser rs uid

/-- Helper of the sliding refresh: sets lastUsedAt of the row keyed by the token to `now` (Sequelize `token.update(\x7b lastUsedAt: new Date() \x7d)`). -/
def refreshLastUsedAt : List TokenRow → String → Nat → List TokenRow
  | [], _, _ => []
  | r :: rs, t, now =>
    if r.token == t then { r with lastUsedAt := now } :: refreshLastUsedAt rs t now
    else r :: refreshLastUsedAt rs t now

/-- Modelled from the spec: `TokenService.verifyToken` (src/auth/TokenService.js is not under src/). Spec section 4.1: absent token yields none; a token with `now - lastUsedAt > EXPIRY` is deleted and none is returned (lazy expiry); otherwise lastUsedAt is updated to now (sliding refresh) and the owning user id is returned. Returns the principal and the updated store. -/
def verifyToken (store : List TokenRow) (t : String) (now : Nat) : Option Nat × List TokenRow :=
  match findToken store t with
  | none => (none, store)
  | some row =>
    if oneWeekInMillis < now - row.lastUsedAt then
      (none, deleteToken store t)
    else
      (some row.userId, refreshLastUsedAt store t now)

/-- Modelled from the spec: the tokenAuthentication middleware (src/middleware/tokenAuthentication.js is not under src/; src/src/server.js line 25 installs it before every router). Spec section 4.2: with a Bearer header it calls verifyToken and attaches the resolved principal on success; on failure or without a header the principal is left unset and the request proceeds. -/
def tokenAuthentication (store : List TokenRow) (auth : Option String) (now : Nat) : Option Nat × List TokenRow :=
  match auth with
  | none => (none, store)
  | some t => verifyToken store t now

/-- Lookup of a user row by id (Sequelize `User.findOne(\x7b where: \x7b id \x7d \x7d)`). -/
def findUserById : List User → Nat → Option User
  | [], _ => none
  | u :: us, uid => if u.id == uid then some u else findUserById us uid

/-- Lookup of a user row by email (Sequelize `User.findOne(\x7b where: \x7b email \x7d \x7d)`). -/
def findUserByEmail : List User → String → Option User
  | [], _ => none
  | u :: us, email => if u.email == email then some u else findUserByEmail us email

/-- Deletion of a user row by id (Sequelize `User.destroy(\x7b where: \x7b id \x7d \x7d)`). -/
def deleteUserById : List User → Nat → List User
  | [], _ => []
  | u :: us, uid => if u.id == uid then deleteUserById us uid else u :: deleteUserById us uid

/-- An HTTP response as the claims observe it: status code, optional body message, and the field-to-message validation errors the error handler serialises. -/
structure Response where
  status : Nat
  message : Option String := none
  validationErrors : List (String × String) := []
deriving Repr, DecidableEq

/-- The persistent state the routes touch: user rows, token rows, hoax rows. -/
structure AppState where
  users : List User
  tokens : List TokenRow
  hoaxes : List Hoax
deriving Repr, DecidableEq

/-- Modelled from the spec: `UserService.updateUser` (src/user/UserService.js is not under src/; spec section 4.3 update requires the principal to match the target id, the router does that check). Applies the body username to the target row. -/
def updateUser (users : List User) (targetId : Nat) (newUsername : Option String) : List User :=
  users.map (fun u => if u.id == targetId then { u with username := newUsername.getD u.username } else u)

/-- Embeds `router.put('/api/1.0/users/:id')` of src/src/user/UserRouter.js lines 82-92: if there is no authenticated principal or its id differs from the target id, a ForbiddenException with message 'You are not authorized to update user' is raised (status 403 via the error handler); otherwise `UserService.updateUser` runs and 200 is returned. -/
def putUserRoute (users : List User) (principal : Option Nat) (targetId : Nat) (newUsername : Option String) : Response × List User :=
  match principal with
  | none => ({ status := 403, message := some "You are not authorized to update user" }, users)
  | some uid =>
    if uid == targetId then
      ({ status := 200 }, updateUser users targetId newUsername)
    else
      ({ status := 403, message := some "You are not authorized to update user" }, users)

/-- Embeds `router.delete('/api/1.0/users/:id')` of src/src/user/UserRouter.js lines 94-104: forbidden (403, 'You are not authorized to delete the user') unless the principal matches the target id; otherwise `UserService.deleteUser` runs. The service itself (src/user/UserService.js) is not under src/; its effect is modelled from the spec (section 3: deleting a user removes the row and cascades to all owned tokens). -/
def deleteUserRoute (users : List User) (tokens : List TokenRow) (principal : Option Nat) (targetId : Nat) : Response × List User × List TokenRow :=
  match principal with
  | none => ({ status := 403, message := some "You are not authorized to delete the user" }, users, tokens)
  | some uid =>
    if uid == targetId then
      ({ status := 200 }, deleteUserById users targetId, deleteTokensForUser tokens targetId)
    else
      ({ status := 403, message := some "You are not authorized to delete the user" }, users, tokens)

/-- Embeds `router.get('/api/1.0/users/:id')` of src/src/user/UserRouter.js lines 73-80; `UserService.getUser` is not under src/ and is modelled from the spec (section 6: 404 not-found for an absent target, 200 otherwise). The route requires no authentication. -/
def getUserRoute (users : List User) (targetId : Nat) : Response :=
  match findUserById users targetId with
  | none => { status := 404, message := some "User not found" }
  | some _ => { status := 200 }

/-- Modelled from the spec: `router.post('/api/1.0/logout')` (src/auth/AuthenticationRouter.js is not under src/). Spec section 4.1 deleteToken plus the Logout tests: the presented token, if any, is deleted via the idempotent deleteToken, and 200 is always returned. -/
def logoutRoute (tokens : List TokenRow) (auth : Option String) : Response × List TokenRow :=
  match auth with
  | none => ({ status := 200 }, tokens)
  | some t => ({ status := 200 }, deleteToken tokens t)

/-- Express-validator rule of src/unnamed/part_004 lines 11-13: `check('content').isLength(min 10, max 5000)`. A missing (null) content fails the rule, as the HoaxSubmit tests pin down. -/
def hoaxContentValid (content : Option String) : Bool :=
  match content with
  | none => false
  | some s => 10 ≤ s.length && s.length ≤ 5000

/-- Embeds `router.post('/api/1.0/hoaxes')` of src/unnamed/part_004 lines 9-28: the handler first rejects requests without an authenticated principal with an AuthenticationException (401, 'You are not authorized to post hoax'); only then does it consult the validation result, raising a ValidationException (400, 'Validation Failure', field message) on out-of-bounds content; otherwise `HoaxService.save` (not under src/, modelled from the spec section 4.4 as persisting the content with the current timestamp) runs and 200 is returned. -/
def postHoaxRoute (principal : Option Nat) (content : Option String) (hoaxes : List Hoax) (now : Nat) : Response × List Hoax :=
  match principal with
  | none => ({ status := 401, message := some "You are not authorized to post hoax" }, hoaxes)
  | some _ =>
    if hoaxContentValid content then
      ({ status := 200, message := some "Hoax is saved" }, hoaxes ++ [{ content := content.getD "", timestamp := now }])
    else
      ({ status := 400, message := some "Validation Failure",
         validationErrors := [("content", "Hoax must be min 10 and max 5000 characters")] }, hoaxes)

/-- The requests the claims exercise, dispatched by the routers mounted in src/src/server.js. -/
inductive ApiRequest where
  | putUser (targetId : Nat) (newUsername : Option String)
  | getUser (targetId : Nat)
  | deleteUser (targetId : Nat)
  | logout
  | postHoax (content : Option String)
deriving Repr, DecidableEq

/-- Embeds the pipeline of src/src/server.js lines 25-28: the tokenAuthentication middleware runs on every request before any router, then the matched route handler runs on the refreshed state. -/
def handleRequest (st : AppState) (auth : Option String) (req : ApiRequest) (now : Nat) : Response × AppState :=
  let resolved := tokenAuthentication st.tokens auth now
  let principal := resolved.1
  let st1 : AppState := { st with tokens := resolved.2 }
  match req with
  | .putUser targetId newUsername =>
    let r := putUserRoute st1.users principal targetId newUsername
    (r.1, { st1 with users := r.2 })
  | .getUser targetId => (getUserRoute st1.users targetId, st1)
  | .deleteUser targetId =>
    let r := deleteUserRoute st1.users st1.tokens principal targetId
    (r.1, { st1 with users := r.2.1, tokens := r.2.2 })
  | .logout =>
    let r := logoutRoute st1.tokens auth
    (r.1, { st1 with tokens := r.2 })
  | .postHoax content =>
    let r := postHoaxRoute principal content st1.hoaxes now
    (r.1, { st1 with hoaxes := r.2 })

/-- A registration request body as the tests send it: nullable username, email, password, and an optional client-supplied inactive flag (which the UserRegister tests show is ignored). -/
structure RegistrationBody where
  username : Option String
  email : Option String
  password : Option String
  inactive : Option Bool
deriving Repr, DecidableEq

/-- Character class [a-z] of the password rule regex in src/unnamed/part_003 line 28, over the character list of the string. -/
def hasAsciiLower (s : String) : Bool := s.data.any (fun c => 'a' ≤ c && c ≤ 'z')

/-- Character class [A-Z] of the password rule regex in src/unnamed/part_003 line 28, over the character list of the string. -/
def hasAsciiUpper (s : String) : Bool := s.data.any (fun c => 'A' ≤ c && c ≤ 'Z')

/-- Character class \d of the password rule regex in src/unnamed/part_003 line 28, over the character list of the string. -/
def hasAsciiDigit (s : String) : Bool := s.data.any (fun c => '0' ≤ c && c ≤ '9')

/-- Splitting of a character list at a separator character, the character-level counterpart of splitting a string. -/
def splitOnChar (c : Char) : List Char → List (List Char)
  | [] => [[]]
  | x :: xs =>
    let r := splitOnChar c xs
    if x == c then [] :: r
    else
      match r with
      | [] => [[x]]
      | y :: ys => (x :: y) :: ys

/-- Simplified model of the external validator isEmail rule (the spec puts request-body validation libraries out of scope): one '@' separating a nonempty local part from a domain made of at least two nonempty dot-separated labels. It accepts the test fixtures such as 'user1@mail.com' and rejects 'mail.com', 'user.mail.com' and 'user@mail' as the UserRegister tests require. -/
def looksLikeEmail (s : String) : Bool :=
  match splitOnChar '@' s.data with
  | [localPart, domain] =>
    !localPart.isEmpty && 2 ≤ (splitOnChar '.' domain).length
      && (splitOnChar '.' domain).all (fun p => !p.isEmpty)
  | _ => false

/-- Username rule chain of src/unnamed/part_003 lines 9-14: notEmpty (bail) then isLength min 4 max 32; first failing rule wins. -/
def usernameError (u : Option String) : Option String :=
  match u with
  | none => some "Username cannot be null"
  | some s =>
    if s.data.isEmpty then some "Username cannot be null"
    else if s.data.length < 4 || 32 < s.data.length then some "Must have min 4 and max 32 characters"
    else none

/-- Email rule chain of src/unnamed/part_003 lines 15-20: notEmpty (bail) then isEmail. -/
def emailError (e : Option String) : Option String :=
  match e with
  | none => some "E-mail cannot be null"
  | some s =>
    if s.data.isEmpty then some "E-mail cannot be null"
    else if !looksLikeEmail s then some "E-mail is not valid"
    else none

/-- Password rule chain of src/unnamed/part_003 lines 21-31: notEmpty (bail), isLength min 6 (bail), then the lowercase/uppercase/digit regex. -/
def passwordError (p : Option String) : Option String :=
  match p with
  | none => some "Password cannot be null"
  | some s =>
    if s.data.isEmpty then some "Password cannot be null"
    else if s.data.length < 6 then some "Password must be at least 6 characters"
    else if !(hasAsciiLower s && hasAsciiUpper s && hasAsciiDigit s) then
      some "Password must have at least 1 uppercase, 1 lowercase letter and 1 number"
    else none

/-- The validationResult field-to-message map collected by the registration route of src/unnamed/part_003, in field order. -/
def registrationErrors (body : RegistrationBody) : List (String × String) :=
  (match usernameError body.username with
   | some m => [("username", m)]
   | none => []) ++
  (match emailError body.email with
   | some m => [("email", m)]
   | none => []) ++
  (match passwordError body.password with
   | some m => [("password", m)]
   | none => [])

/-- Largest user id in the store; Sequelize assigns the next id on creation. -/
def maxUserId : List User → Nat
  | [] => 0
  | u :: us => max u.id (maxUserId us)

/-- Fresh id the store assigns to a newly created user row. -/
def freshUserId (users : List User) : Nat := maxUserId users + 1

/-- Model of `generateToken(16)` of src/src/user/UserRouter.js lines 191-193: the crypto randomness is an external collaborator, so the opaque activation token is modelled as a fixed string. -/
def generatedActivationToken : String := "randomActivationToken"

/-- The user row built by `UserService.save` of src/src/user/UserRouter.js lines 195-204: only username, email and the bcrypt hash of password are taken from the body, plus a generated activationToken; `inactive` is not set by save, so the stored row carries the model default true (spec section 3). The body's own inactive field is never read. -/
def newUserFromBody (users : List User) (body : RegistrationBody) : User :=
  { id := freshUserId users,
    username := body.username.getD "",
    email := body.email.getD "",
    password := bcryptHash (body.password.getD ""),
    inactive := true,
    activationToken := some generatedActivationToken }

/-- Embeds `UserService.save` of src/src/user/UserRouter.js lines 195-205: destructures username, email, password from the body, hashes the password, and persists the new row via `User.create`. -/
def UserService.save (users : List User) (body : RegistrationBody) : List User :=
  users ++ [newUserFromBody users body]

/-- Modelled from the spec: the final `UserService.save` with email dispatch (src/user/UserService.js is not under src/). Spec sections 4.3 and 6: the user row is persisted, then the activation email is sent; if dispatch fails the created user is rolled back (destroyed) and the failure propagates. The boolean result tags success; `emailOk` is the outcome of the external email collaborator. -/
def UserService.saveWithEmail (users : List User) (body : RegistrationBody) (emailOk : Bool) : Bool × List User :=
  let u := newUserFromBody users body
  let afterCreate := users ++ [u]
  if emailOk then (true, afterCreate)
  else (false, deleteUserById afterCreate u.id)

/-- Embeds `router.post('/api/v1/users')` of src/unnamed/part_003 lines 7-48: on validation errors respond 400 with the field map; otherwise try `UserService.save` and respond 200 'User created', mapping a thrown email failure to 502 'E-mail failure'. -/
def registerRoute (users : List User) (body : RegistrationBody) (emailOk : Bool) : Response × List User :=
  let errs := registrationErrors body
  if errs.isEmpty then
    let r := UserService.saveWithEmail users body emailOk
    if r.1 then ({ status := 200, message := some "User created" }, r.2)
    else ({ status := 502, message := some "E-mail failure" }, r.2)
  else
    ({ status := 400, message := some "Validation Failure", validationErrors := errs }, users)

/-- Modelled from the spec: the basicAuthentication middleware (src/middleware/basicAuthentication.js is not under src/). Spec section 4.2 with the UserUpdate tests: the Basic header is decoded to (email, password); the user is looked up by email and the principal is attached only when the bcrypt comparison succeeds and the user is active, so that on unknown email, wrong password or inactive user the route's forbidden rejection fires. -/
def basicAuthentication (users : List User) (cred : Option (String × String)) : Option Nat :=
  match cred with
  | none => none
  | some (email, pw) =>
    match findUserByEmail users email with
    | none => none
    | some u => if u.password == bcryptHash pw && !u.inactive then some u.id else none

/-- Embeds `router.put('/api/1.0/users/:id')` of src/unnamed/part_002 lines 81-95: the basicAuthentication middleware resolves the candidate principal, then the same owner check as the token-authenticated route runs (ForbiddenException 'You are not authorized to update user' when the principal is absent or does not match the target). -/
def handleBasicPutUser (users : List User) (cred : Option (String × String)) (targetId : Nat) (newUsername : Option String) : Response × List User :=
  putUserRoute users (basicAuthentication users cred) targetId newUsername

/-- Fixture mirroring the activeUser of the tests: active user id 1 with the bcrypt hash of P4ssword. -/
def user1 : User :=
  { id := 1, username := "user1", email := "user1@mail.com",
    password := bcryptHash "P4ssword", inactive := false, activationToken := none }

/-- Fixture state with one active user and one token issued to that user at time 0. -/
def exSt : AppState :=
  { users := [user1],
    tokens := [{ token := "test-token", userId := 1, lastUsedAt := 0 }],
    hoaxes := [] }

/-- Fixture state with one active user holding two tokens, as in the UserDelete two-token test. -/
def twoTokenSt : AppState :=
  { users := [user1],
    tokens := [{ token := "tok1", userId := 1, lastUsedAt := 0 },
               { token := "tok2", userId := 1, lastUsedAt := 0 }],
    hoaxes := [] }

theorem findToken_deleteToken_self (store : List TokenRow) (t : String) :
    findToken (deleteToken store t) t = none := by
  induction store with
  | nil => rfl
  | cons r rs ih =>
    by_cases h : r.token == t
    · simp [deleteToken, h, ih]
    · simp [deleteToken, h, findToken, ih]

theorem deleteToken_of_absent (store : List TokenRow) (t : String)
    (h : findToken store t = none) : deleteToken store t = store := by
  induction store with
  | nil => rfl
  | cons r rs ih =>
    by_cases hr : r.token == t
    · simp [findToken, hr] at h
    · simp [findToken, hr] at h
      simp [deleteToken, hr, ih h]

theorem findToken_refreshLastUsedAt (store : List TokenRow) (t : String) (now : Nat)
    (row : TokenRow) (h : findToken store t = some row) :
    findToken (refreshLastUsedAt store t now) t = some { row with lastUsedAt := now } := by
  induction store with
  | nil => simp [findToken] at h
  | cons r rs ih =>
    by_cases hr : r.token == t
    · simp [findToken, hr] at h
      simp [refreshLastUsedAt, hr, findToken, ← h]
    · simp [findToken, hr] at h
      simp [refreshLastUsedAt, hr, findToken, ih h]

theorem deleteTokensForUser_purges (store : List TokenRow) (uid : Nat) :
    (deleteTokensForUser store uid).filter (fun r => r.userId == uid) = [] := by
  induction store with
  | nil => rfl
  | cons r rs ih =>
    by_cases h : r.userId == uid
    · simp [deleteTokensForUser, h, ih]
    · simp [deleteTokensForUser, h, List.filter, ih]

theorem findUserByEmail_mem (users : List User) (email : String) (u : User)
    (h : findUserByEmail users email = some u) : u ∈ users ∧ u.email = email := by
  induction users with
  | nil => simp [findUserByEmail] at h
  | cons v vs ih =>
    by_cases hv : v.email == email
    · simp [findUserByEmail, hv] at h
      subst h
      exact ⟨List.mem_cons_self _ _, by simpa using hv⟩
    · simp [findUserByEmail, hv] at h
      rcases ih h with ⟨hm, he⟩
      exact ⟨List.mem_cons_of_mem _ hm, he⟩

theorem id_le_maxUserId (users : List User) (u : User) (h : u ∈ users) :
    u.id ≤ maxUserId users := by
  induction users with
  | nil => simp at h
  | cons v vs ih =>
    rcases List.mem_cons.mp h with h1 | h2
    · subst h1
      exact le_max_left _ _
    · exact le_trans (ih h2) (le_max_right _ _)

theorem deleteUserById_of_all_ne (users : List User) (uid : Nat)
    (h : ∀ u ∈ users, u.id ≠ uid) : deleteUserById users uid = users := by
  induction users with
  | nil => rfl
  | cons v vs ih =>
    have hv : v.id ≠ uid := h v (List.mem_cons_self _ _)
    have hrest : ∀ u ∈ vs, u.id ≠ uid := fun u hu => h u (List.mem_cons_of_mem _ hu)
    simp [deleteUserById, hv, ih hrest]

theorem deleteUserById_append (xs ys : List User) (uid : Nat) :
    deleteUserById (xs ++ ys) uid = deleteUserById xs uid ++ deleteUserById ys uid := by
  induction xs with
  | nil => rfl
  | cons v vs ih =>
    by_cases hv : v.id == uid
    · simp [deleteUserById, hv, ih]
    · simp [deleteUserById, hv, ih]

theorem saveWithEmail_rollback (users : List User) (body : RegistrationBody) :
    UserService.saveWithEmail users body false = (false, users) := by
  have hfresh : ∀ u ∈ users, u.id ≠ freshUserId users := by
    intro u hu
    have := id_le_maxUserId users u hu
    simp only [freshUserId]
    omega
  have h1 : deleteUserById (users ++ [newUserFromBody users body]) (newUserFromBody users body).id = users := by
    rw [deleteUserById_append]
    rw [deleteUserById_of_all_ne users _ (by simpa [newUserFromBody] using hfresh)]
    simp [deleteUserById, newUserFromBody]
  simp [UserService.saveWithEmail, h1]

/-- C1: a token whose stored lastUsedAt is more than 7 days before the current time yields no authenticated principal: verifyToken returns none and deletes the row (lazy expiry), and an owner-only PUT /api/1.0/users/:id presented with it is rejected with 403, the token row being absent from the store afterward. -/
theorem expired_token_put_forbidden_and_purged
    (st : AppState) (t : String) (now : Nat) (row : TokenRow) (targetId : Nat) (newUsername : Option String)
    (hfind : findToken st.tokens t = some row)
    (hexp : oneWeekInMillis < now - row.lastUsedAt) :
    (verifyToken st.tokens t now).1 = none
    ∧ findToken (verifyToken st.tokens t now).2 t = none
    ∧ (handleRequest st (some t) (.putUser targetId newUsername) now).1.status = 403
    ∧ findToken (handleRequest st (some t) (.putUser targetId newUsername) now).2.tokens t = none := by
  have hv : verifyToken st.tokens t now = (none, deleteToken st.tokens t) := by
    simp [verifyToken, hfind, hexp]
  refine ⟨by simp [hv], by simp [hv, findToken_deleteToken_self], ?_, ?_⟩
  · simp [handleRequest, tokenAuthentication, hv, putUserRoute]
  · simp [handleRequest, tokenAuthentication, hv, putUserRoute, findToken_deleteToken_self]

theorem expired_token_put_forbidden_and_purged_witness :
    (verifyToken exSt.tokens "test-token" (oneWeekInMillis + 1)).1 = none
    ∧ findToken (verifyToken exSt.tokens "test-token" (oneWeekInMillis + 1)).2 "test-token" = none
    ∧ (handleRequest exSt (some "test-token") (.putUser 1 (some "user1-updated")) (oneWeekInMillis + 1)).1.status = 403
    ∧ findToken (handleRequest exSt (some "test-token") (.putUser 1 (some "user1-updated")) (oneWeekInMillis + 1)).2.tokens "test-token" = none :=
  expired_token_put_forbidden_and_purged exSt "test-token" (oneWeekInMillis + 1)
    { token := "test-token", userId := 1, lastUsedAt := 0 } 1 (some "user1-updated")
    (by rfl) (by decide)

/-- C2: verifying a token successfully at time now within the 7-day window returns the owning user and stores lastUsedAt = now, so the stored lastUsedAt afterward is at least the verification time and, when the clock is monotone (the old stamp is in the past), at least the old stamp: the sliding refresh is monotonic non-decreasing. -/
theorem verifyToken_refresh_monotonic
    (store : List TokenRow) (t : String) (now : Nat) (row : TokenRow)
    (hfind : findToken store t = some row)
    (hvalid : now - row.lastUsedAt ≤ oneWeekInMillis)
    (hclock : row.lastUsedAt ≤ now) :
    (verifyToken store t now).1 = some row.userId
    ∧ findToken (verifyToken store t now).2 t = some { row with lastUsedAt := now }
    ∧ now ≤ ({ row with lastUsedAt := now } : TokenRow).lastUsedAt
    ∧ row.lastUsedAt ≤ ({ row with lastUsedAt := now } : TokenRow).lastUsedAt := by
  have hnot : ¬ oneWeekInMillis < now - row.lastUsedAt := not_lt.mpr hvalid
  have hv : verifyToken store t now = (some row.userId, refreshLastUsedAt store t now) := by
    simp [verifyToken, hfind, hnot]
  exact ⟨by simp [hv], by simp [hv, findToken_refreshLastUsedAt store t now row hfind],
    le_refl now, hclock⟩

theorem verifyToken_refresh_monotonic_witness :
    (verifyToken exSt.tokens "test-token" 5).1 = some 1
    ∧ findToken (verifyToken exSt.tokens "test-token" 5).2 "test-token"
        = some { token := "test-token", userId := 1, lastUsedAt := 5 }
    ∧ (5 : Nat) ≤ 5
    ∧ (0 : Nat) ≤ 5 := by
  have h := verifyToken_refresh_monotonic exSt.tokens "test-token" 5
    { token := "test-token", userId := 1, lastUsedAt := 0 } (by rfl) (by decide) (by decide)
  exact ⟨h.1, h.2.1, h.2.2.1, h.2.2.2⟩

/-- C3: presenting a valid (unexpired) bearer token refreshes its stored lastUsedAt to the current time in the tokenAuthentication middleware that src/src/server.js runs before every route, and in particular after a GET /api/1.0/users/:id request (a route that needs no authentication) the stored lastUsedAt equals the request time. -/
theorem valid_token_refreshed_even_on_unauthenticated_route
    (st : AppState) (t : String) (now : Nat) (row : TokenRow) (targetId : Nat)
    (hfind : findToken st.tokens t = some row)
    (hvalid : now - row.lastUsedAt ≤ oneWeekInMillis) :
    findToken (tokenAuthentication st.tokens (some t) now).2 t = some { row with lastUsedAt := now }
    ∧ findToken (handleRequest st (some t) (.getUser targetId) now).2.tokens t
        = some { row with lastUsedAt := now } := by
  have hnot : ¬ oneWeekInMillis < now - row.lastUsedAt := not_lt.mpr hvalid
  have hv : verifyToken st.tokens t now = (some row.userId, refreshLastUsedAt st.tokens t now) := by
    simp [verifyToken, hfind, hnot]
  constructor
  · simp [tokenAuthentication, hv, findToken_refreshLastUsedAt st.tokens t now row hfind]
  · simp [handleRequest, tokenAuthentication, hv,
      findToken_refreshLastUsedAt st.tokens t now row hfind]

theorem valid_token_refreshed_even_on_unauthenticated_route_witness :
    findToken (tokenAuthentication exSt.tokens (some "test-token") 5).2 "test-token"
        = some { token := "test-token", userId := 1, lastUsedAt := 5 }
    ∧ findToken (handleRequest exSt (some "test-token") (.getUser 5) 5).2.tokens "test-token"
        = some { token := "test-token", userId := 1, lastUsedAt := 5 } :=
  valid_token_refreshed_even_on_unauthenticated_route exSt "test-token" 5
    { token := "test-token", userId := 1, lastUsedAt := 0 } 5 (by rfl) (by decide)

/-- C4: a DELETE /api/1.0/users/:id request authenticated with a valid token of the target user succeeds with 200, and afterward no token owned by that user remains in the store (cascade delete), so with two tokens for one user deleting via one invalidates the other as well. -/
theorem delete_user_removes_all_owned_tokens
    (st : AppState) (t : String) (now : Nat) (row : TokenRow)
    (hfind : findToken st.tokens t = some row)
    (hvalid : now - row.lastUsedAt ≤ oneWeekInMillis) :
    (handleRequest st (some t) (.deleteUser row.userId) now).1.status = 200
    ∧ (handleRequest st (some t) (.deleteUser row.userId) now).2.tokens.filter
        (fun r => r.userId == row.userId) = [] := by
  have hnot : ¬ oneWeekInMillis < now - row.lastUsedAt := not_lt.mpr hvalid
  have hv : verifyToken st.tokens t now = (some row.userId, refreshLastUsedAt st.tokens t now) := by
    simp [verifyToken, hfind, hnot]
  constructor
  · simp [handleRequest, tokenAuthentication, hv, deleteUserRoute]
  · simp [handleRequest, tokenAuthentication, hv, deleteUserRoute, deleteTokensForUser_purges]

theorem delete_user_removes_all_owned_tokens_witness :
    (handleRequest twoTokenSt (some "tok1") (.deleteUser 1) 5).1.status = 200
    ∧ (handleRequest twoTokenSt (some "tok1") (.deleteUser 1) 5).2.tokens.filter
        (fun r => r.userId == 1) = [] :=
  delete_user_removes_all_owned_tokens twoTokenSt "tok1" 5
    { token := "tok1", userId := 1, lastUsedAt := 0 } (by rfl) (by decide)

/-- C5: deleteToken on a token absent from the store leaves the store unchanged (idempotent delete), and a POST /api/1.0/logout request with an unknown bearer token, or with none at all, returns 200 and leaves the whole state unchanged. -/
theorem deleteToken_idempotent_logout_ok
    (st : AppState) (t : String) (now : Nat)
    (habsent : findToken st.tokens t = none) :
    deleteToken st.tokens t = st.tokens
    ∧ (handleRequest st (some t) .logout now).1.status = 200
    ∧ (handleRequest st (some t) .logout now).2 = st
    ∧ (handleRequest st none .logout now).1.status = 200
    ∧ (handleRequest st none .logout now).2 = st := by
  have hd : deleteToken st.tokens t = st.tokens := deleteToken_of_absent st.tokens t habsent
  refine ⟨hd, ?_, ?_, ?_, ?_⟩
  · simp [handleRequest, tokenAuthentication, verifyToken, habsent, logoutRoute]
  · simp [handleRequest, tokenAuthentication, verifyToken, habsent, logoutRoute, hd]
  · simp [handleRequest, tokenAuthentication, logoutRoute]
  · simp [handleRequest, tokenAuthentication, logoutRoute]

theorem deleteToken_idempotent_logout_ok_witness :
    deleteToken exSt.tokens "absent-token" = exSt.tokens
    ∧ (handleRequest exSt (some "absent-token") .logout 5).1.status = 200
    ∧ (handleRequest exSt (some "absent-token") .logout 5).2 = exSt
    ∧ (handleRequest exSt none .logout 5).1.status = 200
    ∧ (handleRequest exSt none .logout 5).2 = exSt :=
  deleteToken_idempotent_logout_ok exSt "absent-token" 5 (by rfl)

/-- C6: a basic-auth-protected owner action (PUT /api/1.0/users/:id of src/unnamed/part_002) whose Basic credentials name an email for which every stored user either has a different password hash or is inactive (covering unknown email, wrong password and inactive user) is rejected with 403 forbidden, not 401, and the store is unchanged. -/
theorem basic_auth_mismatch_forbidden
    (users : List User) (email pw : String) (targetId : Nat) (newUsername : Option String)
    (h : ∀ u ∈ users, u.email = email → u.password ≠ bcryptHash pw ∨ u.inactive = true) :
    (handleBasicPutUser users (some (email, pw)) targetId newUsername).1.status = 403
    ∧ (handleBasicPutUser users (some (email, pw)) targetId newUsername).1.status ≠ 401
    ∧ (handleBasicPutUser users (some (email, pw)) targetId newUsername).2 = users := by
  have hba : basicAuthentication users (some (email, pw)) = none := by
    cases hfind : findUserByEmail users email with
    | none => simp [basicAuthentication, hfind]
    | some u =>
      obtain ⟨hm, he⟩ := findUserByEmail_mem users email u hfind
      rcases h u hm he with hp | hi
      · have hb : (u.password == bcryptHash pw) = false := beq_eq_false_iff_ne.mpr hp
        simp [basicAuthentication, hfind, hb]
      · simp [basicAuthentication, hfind, hi]
  refine ⟨?_, ?_, ?_⟩ <;> simp [handleBasicPutUser, hba, putUserRoute]

theorem basic_auth_mismatch_forbidden_witness :
    (handleBasicPutUser [user1] (some ("user1@mail.com", "password")) 1 none).1.status = 403
    ∧ (handleBasicPutUser [user1] (some ("user1@mail.com", "password")) 1 none).1.status ≠ 401
    ∧ (handleBasicPutUser [user1] (some ("user1@mail.com", "password")) 1 none).2 = [user1] :=
  basic_auth_mismatch_forbidden [user1] "user1@mail.com" "password" 1 none (by decide)

/-- C7: when the registration body passes validation but the activation email dispatch fails, the registration route of src/unnamed/part_003 responds 502 'E-mail failure' and the created user is rolled back, so the user store afterward equals the store before the request. -/
theorem email_failure_rolls_back_registration
    (users : List User) (body : RegistrationBody)
    (hvalid : registrationErrors body = []) :
    (registerRoute users body false).1.status = 502
    ∧ (registerRoute users body false).1.message = some "E-mail failure"
    ∧ (registerRoute users body false).2 = users := by
  refine ⟨?_, ?_, ?_⟩ <;> simp [registerRoute, hvalid, saveWithEmail_rollback]

theorem email_failure_rolls_back_registration_witness :
    (registerRoute [] { username := some "user1", email := some "user1@mail.com", password := some "P4ssword", inactive := none } false).1.status = 502
    ∧ (registerRoute [] { username := some "user1", email := some "user1@mail.com", password := some "P4ssword", inactive := none } false).1.message = some "E-mail failure"
    ∧ (registerRoute [] { username := some "user1", email := some "user1@mail.com", password := some "P4ssword", inactive := none } false).2 = [] :=
  email_failure_rolls_back_registration []
    { username := some "user1", email := some "user1@mail.com", password := some "P4ssword", inactive := none }
    (by decide)

/-- C8: for an authenticated POST /api/1.0/hoaxes request, content failing the [10,5000] length rule (null, too short or too long) is rejected with 400 carrying the content field message and no hoax is persisted, while content within the bounds is saved with 200. -/
theorem hoax_content_bounds_validated
    (uid : Nat) (content : Option String) (hoaxes : List Hoax) (now : Nat) :
    (hoaxContentValid content = false →
      (postHoaxRoute (some uid) content hoaxes now).1.status = 400
      ∧ (postHoaxRoute (some uid) content hoaxes now).1.validationErrors
          = [("content", "Hoax must be min 10 and max 5000 characters")]
      ∧ (postHoaxRoute (some uid) content hoaxes now).2 = hoaxes)
    ∧ (hoaxContentValid content = true →
      (postHoaxRoute (some uid) content hoaxes now).1.status = 200
      ∧ (postHoaxRoute (some uid) content hoaxes now).2
          = hoaxes ++ [{ content := content.getD "", timestamp := now }]) := by
  constructor
  · intro h
    refine ⟨?_, ?_, ?_⟩ <;> simp [postHoaxRoute, h]
  · intro h
    constructor <;> simp [postHoaxRoute, h]

theorem hoax_content_bounds_validated_witness :
    ((postHoaxRoute (some 1) (some "123456789") [] 7).1.status = 400
      ∧ (postHoaxRoute (some 1) (some "123456789") [] 7).1.validationErrors
          = [("content", "Hoax must be min 10 and max 5000 characters")]
      ∧ (postHoaxRoute (some 1) (some "123456789") [] 7).2 = [])
    ∧ ((postHoaxRoute (some 1) (some "Hoax content") [] 7).1.status = 200
      ∧ (postHoaxRoute (some 1) (some "Hoax content") [] 7).2
          = [{ content := "Hoax content", timestamp := 7 }]) :=
  ⟨(hoax_content_bounds_validated 1 (some "123456789") [] 7).1 (by rfl),
   (hoax_content_bounds_validated 1 (some "Hoax content") [] 7).2 (by rfl)⟩

/-- C9: registration always persists the stored user as inactive: UserService.save never reads the body's inactive field, so saving a body whose inactive flag is changed to any value (including false) yields the identical store, and the row it appends has inactive = true. -/
theorem registration_ignores_client_inactive
    (users : List User) (body : RegistrationBody) (b : Option Bool) :
    UserService.save users { body with inactive := b } = UserService.save users body
    ∧ (UserService.save users body).getLast?.map (fun u => u.inactive) = some true := by
  constructor
  · rfl
  · simp [UserService.save, newUserFromBody]

/-- C10: on POST /api/1.0/hoaxes the authentication check runs before content validation: a request without authentication gets 401 with message 'You are not authorized to post hoax' whatever the content, never the 400 validation failure, and the state is unchanged. -/
theorem unauthenticated_hoax_post_rejected_before_validation
    (st : AppState) (content : Option String) (now : Nat) :
    (handleRequest st none (.postHoax content) now).1.status = 401
    ∧ (handleRequest st none (.postHoax content) now).1.message
        = some "You are not authorized to post hoax"
    ∧ (handleRequest st none (.postHoax content) now).1.status ≠ 400
    ∧ (handleRequest st none (.postHoax content) now).2 = st := by
  refine ⟨?_, ?_, ?_, ?_⟩ <;> simp [handleRequest, tokenAuthentication, postHoaxRoute]

end HoaxApi
